import Mathlib

set_option autoImplicit false

/-!
Shallow embedding of `dns-domain-expiration-checker.py` (version 9.1).

The embedded functions are `parse_whois_data`, `calculate_expiration_days`
and `check_expired`, together with the Python string primitives they rely
on (`str.splitlines`, `sub in line`, `str.partition`, `str.split`,
`str.strip`).  Datetimes are modelled as integers counting microseconds
since the Unix epoch, the resolution of Python `datetime` objects; the
external `dateutil.parser.parse` date parser is an explicit functional
parameter, with one concrete executable model used for concrete inputs.
-/

namespace DnsChecker

/-- The expiration field labels scanned for in WHOIS output
(`EXPIRE_STRINGS` at the top of the script). -/
def EXPIRE_STRINGS : List String :=
  ["Registry Expiry Date:",
   "Expiration:",
   "Domain Expiration Date",
   "Registrar Registration Expiration Date:",
   "expire:",
   "expires:",
   "Expiry date"]

/-- The registrar field labels (`REGISTRAR_STRINGS`). -/
def REGISTRAR_STRINGS : List String := ["Registrar:"]

/-- The module flag `DEBUG`, constant `0` in the source. -/
def DEBUG : Nat := 0

/-- Does `pat` occur at the very front of `l`?  Building block for the
Python string operators below. -/
def prefixMatch : List Char → List Char → Bool
  | [], _ => true
  | _ :: _, [] => false
  | a :: pat, b :: l => a == b && prefixMatch pat l

/-- Python substring test `sub in hay` on character lists. -/
def containsSub : List Char → List Char → Bool
  | hay, sub =>
    match hay with
    | [] => sub.isEmpty
    | _ :: rest => prefixMatch sub hay || containsSub rest sub

/-- Python substring test `sub in line` on strings. -/
def strContains (line sub : String) : Bool :=
  containsSub line.data sub.data

/-- Characters after the first occurrence of `sep`
(`str.partition(sep)[2]`): empty when `sep` does not occur. -/
def partAfterFirst (sep : List Char) : List Char → List Char
  | [] => []
  | c :: rest =>
    if prefixMatch sep (c :: rest) then (c :: rest).drop sep.length
    else partAfterFirst sep rest

/-- Characters before the first occurrence of `sep`: the whole list when
`sep` does not occur.  `partBeforeFirst sep (partAfterFirst sep l)` models
`l.split(sep)[1]`, the text between the first and second occurrences of
`sep`, when `sep` occurs in `l`. -/
def partBeforeFirst (sep : List Char) : List Char → List Char
  | [] => []
  | c :: rest =>
    if prefixMatch sep (c :: rest) then []
    else c :: partBeforeFirst sep rest

/-- Python 2 `str.splitlines()`: line boundaries are LF, CRLF and CR, and a
trailing boundary does not produce an empty final line. -/
def splitlinesChars : List Char → List (List Char)
  | [] => []
  | '\n' :: rest => [] :: splitlinesChars rest
  | '\r' :: '\n' :: rest => [] :: splitlinesChars rest
  | '\r' :: rest => [] :: splitlinesChars rest
  | c :: rest =>
    match splitlinesChars rest with
    | [] => [[c]]
    | line :: ls => (c :: line) :: ls

/-- `str.splitlines()` on strings. -/
def splitlines (s : String) : List String :=
  (splitlinesChars s.data).map String.mk

/-- The loop guard `any(expire_string in line for expire_string in
EXPIRE_STRINGS)`. -/
def isExpireLine (line : String) : Bool :=
  EXPIRE_STRINGS.any (fun s => strContains line s)

/-- The loop guard `any(registrar_string in line for registrar_string in
REGISTRAR_STRINGS)`. -/
def isRegistrarLine (line : String) : Bool :=
  REGISTRAR_STRINGS.any (fun s => strContains line s)

/-- The text handed to the date parser: `line.partition(": ")[2]`. -/
def dateText (line : String) : String :=
  String.mk (partAfterFirst [':', ' '] line.data)

/-- The whitespace stripped by Python 2 `str.strip()`:
space, tab, LF, VT, FF, CR. -/
def isStripChar (c : Char) : Bool :=
  c == ' ' || c == '\t' || c == '\n' || c == '\x0b' || c == '\x0c' || c == '\x0d'

/-- Drop leading strippable whitespace. -/
def dropLeading : List Char → List Char
  | [] => []
  | c :: rest => if isStripChar c then dropLeading rest else c :: rest

/-- Python `str.strip()` on character lists: drop leading whitespace, then
trailing whitespace (via a reversal). -/
def stripChars (l : List Char) : List Char :=
  (dropLeading (dropLeading l).reverse).reverse

/-- The registrar value `line.split("Registrar:")[1].strip()`. -/
def regText (line : String) : String :=
  String.mk (stripChars (partBeforeFirst "Registrar:".data
    (partAfterFirst "Registrar:".data line.data)))

/-- The value bound to the `expiration_date` variable of
`parse_whois_data`: either the initial placeholder string or a parsed
datetime (microseconds since the epoch). -/
inductive ExpirationValue where
  | sentinel (s : String)
  | date (d : Int)
deriving DecidableEq, Repr

/-- The line loop of `parse_whois_data`, threading the `expiration_date`
and `registrar` variables.  A date-parse failure on a matched line is an
uncaught `ValueError` escaping the function, modelled as `Except.error ()`;
it aborts the loop before the registrar test of the failing line, exactly
as the exception does. -/
def parseLoop (dparse : String → Option Int) :
    List String → ExpirationValue → String → Except Unit (ExpirationValue × String)
  | [], ed, reg => .ok (ed, reg)
  | line :: rest, ed, reg =>
    match (if isExpireLine line then
             match dparse (dateText line) with
             | some d => Except.ok (ExpirationValue.date d)
             | none => Except.error ()
           else Except.ok ed) with
    | .error e => .error e
    | .ok ed2 =>
      parseLoop dparse rest ed2 (if isRegistrarLine line then regText line else reg)

/-- `parse_whois_data(whois_data)`: scan each line of the WHOIS blob for
expiration and registrar labels.  `dparse` stands for
`dateutil.parser.parse(-, ignoretz=True)`. -/
def parse_whois_data (dparse : String → Option Int) (whois_data : String) :
    Except Unit (ExpirationValue × String) :=
  parseLoop dparse (splitlines whois_data) (.sentinel "00/00/00 00:00:00") "Unknown"

/-- Microseconds per day, the resolution of Python datetime arithmetic. -/
def usPerDay : Int := 86400000000

/-- Days since 1970-01-01 of a proleptic-Gregorian civil date, the
arithmetic behind Python `datetime.toordinal`. -/
def daysFromCivil (y m d : Int) : Int :=
  let y2 := if m ≤ 2 then y - 1 else y
  let era := y2.fdiv 400
  let yoe := y2 - era * 400
  let mp := (m + 9) % 12
  let doy := (153 * mp + 2).fdiv 5 + d - 1
  let doe := yoe * 365 + yoe.fdiv 4 - yoe.fdiv 100 + doy
  era * 146097 + doe - 719468

/-- Timestamp of a civil date-time in microseconds since the epoch, with
Python `datetime` field bounds enforced. -/
def mkStamp (y mo d h mi s : Int) : Option Int :=
  if 1 ≤ mo ∧ mo ≤ 12 ∧ 1 ≤ d ∧ d ≤ 31 ∧ 0 ≤ h ∧ h < 24 ∧
     0 ≤ mi ∧ mi < 60 ∧ 0 ≤ s ∧ s < 60 then
    some (daysFromCivil y mo d * usPerDay + (h * 3600 + mi * 60 + s) * 1000000)
  else none

/-- Numeric value of a decimal digit character. -/
def digitVal (c : Char) : Option Int :=
  if c.isDigit then some (Int.ofNat (c.toNat - 48)) else none

/-- Two-digit decimal number. -/
def num2 (a b : Char) : Option Int := do
  let x ← digitVal a
  let y ← digitVal b
  pure (10 * x + y)

/-- Four-digit decimal number. -/
def num4 (a b c d : Char) : Option Int := do
  let x ← num2 a b
  let y ← num2 c d
  pure (100 * x + y)

/-- Modelled from the external `python-dateutil` dependency, whose code is
not part of this repository: `dateutil.parser.parse(s, ignoretz=True)`
restricted to ISO-8601 text `YYYY-MM-DD`, optionally followed by
`THH:MM:SS` and a trailing `Z` (discarded by `ignoretz`).  On any other
text — in particular the empty string that `partition` yields for a line
without `": "` — `dateutil` raises `ValueError`, modelled as `none`. -/
def dateutilParse (s : String) : Option Int :=
  let cs := if s.data.getLast? = some 'Z' then s.data.dropLast else s.data
  match cs with
  | [y1, y2, y3, y4, '-', m1, m2, '-', d1, d2] => do
    let y ← num4 y1 y2 y3 y4
    let mo ← num2 m1 m2
    let d ← num2 d1 d2
    mkStamp y mo d 0 0 0
  | [y1, y2, y3, y4, '-', m1, m2, '-', d1, d2, 'T', h1, h2, ':', n1, n2, ':', s1, s2] => do
    let y ← num4 y1 y2 y3 y4
    let mo ← num2 m1 m2
    let d ← num2 d1 d2
    let h ← num2 h1 h2
    let n ← num2 n1 n2
    let sec ← num2 s1 s2
    mkStamp y mo d h n sec
  | _ => none

/-- Python `timedelta.days` of a difference of datetimes: the floor of the
difference in whole days (`timedelta` normalises so that
`0 <= seconds < 86400`, pushing the sign into `days`). -/
def timedeltaDays (us : Int) : Int := us.fdiv usPerDay

/-- `calculate_expiration_days(expire_days, expiration_date)`, with the
internal call `datetime.now()` made an explicit argument `now`.
Subtracting `datetime.now()` from the placeholder string raises
`TypeError`, which the bare `except` turns into `sys.exit(1)`, modelled as
`Except.error 1` carrying the exit status. -/
def calculate_expiration_days (expire_days : Int) (expiration_date : ExpirationValue)
    (now : Int) : Except Nat Int :=
  match expiration_date with
  | .sentinel _ => .error 1
  | .date d =>
    let domain_expire := timedeltaDays (d - now)
    if domain_expire < expire_days then .ok domain_expire else .ok 0

/-- `check_expired(expiration_days, days_remaining)`. -/
def check_expired (expiration_days days_remaining : Int) : Int :=
  if days_remaining < expiration_days then days_remaining else 0

/-- Python truthiness of an `int`, as used by `if check_expired(...)` in
`main`. -/
def intTruthy (n : Int) : Bool := n != 0

/-- The notification decision in `main`:
`if check_expired(expiration_days, days_remaining): domain_expire_notify(...)`. -/
def notifyDecision (expiration_days days_remaining : Int) : Bool :=
  intTruthy (check_expired expiration_days days_remaining)

/-- The `debug` helper: appends its message to the output stream only when
the `DEBUG` flag is set. -/
def debugWrite (msg : String) (out : List String) : List String :=
  if DEBUG != 0 then out ++ [msg] else out

/-- `parse_whois_data` with its only effect — the `debug` print — made an
explicit transformation of the output stream, so that statelessness across
invocations can be stated. -/
def parse_whois_dataSt (dparse : String → Option Int) (whois_data : String)
    (out : List String) : Except Unit (ExpirationValue × String) × List String :=
  (parse_whois_data dparse whois_data,
   debugWrite ("Parsing the whois data blob " ++ whois_data) out)

/-- The last element of a list satisfying `p`: the binding that survives a
loop that overwrites its variable on every matching line. -/
def lastMatch (p : String → Bool) : List String → Option String
  | [] => none
  | x :: xs =>
    match lastMatch p xs with
    | some y => some y
    | none => if p x then some x else none

/-- The final value of the `registrar` variable after the loop of
`parse_whois_data`, starting from `reg`. -/
def regFold : List String → String → String
  | [], reg => reg
  | line :: rest, reg =>
    regFold rest (if isRegistrarLine line then regText line else reg)


theorem prefixMatch_self_append (l t : List Char) : prefixMatch l (l ++ t) = true := by
  induction l with
  | nil => rfl
  | cons a l ih => simp [prefixMatch, ih]

theorem containsSub_self_append (l t : List Char) : containsSub (l ++ t) l = true := by
  cases l with
  | nil => cases t <;> simp [containsSub, List.isEmpty, prefixMatch]
  | cons a l =>
    simp only [containsSub, List.cons_append, Bool.or_eq_true]
    exact Or.inl (prefixMatch_self_append (a :: l) t)

theorem partAfterFirst_colon_space (pre ds : List Char) (hpre : ':' ∉ pre) :
    partAfterFirst [':', ' '] (pre ++ ':' :: ' ' :: ds) = ds := by
  induction pre with
  | nil => simp [partAfterFirst, prefixMatch]
  | cons c pre ih =>
    have hc : c ≠ ':' := fun h => hpre (h ▸ List.mem_cons_self c pre)
    have hp : prefixMatch [':', ' '] (c :: (pre ++ ':' :: ' ' :: ds)) = false := by
      simp [prefixMatch, hc, Ne.symm hc]
    simp [partAfterFirst, hp, ih fun h => hpre (List.mem_cons_of_mem c h)]

theorem splitlinesChars_single (l : List Char) (hne : l ≠ [])
    (h : ∀ c ∈ l, c ≠ '\n' ∧ c ≠ '\r') : splitlinesChars l = [l] := by
  induction l with
  | nil => exact absurd rfl hne
  | cons c rest ih =>
    have hc := h c (List.mem_cons_self c rest)
    cases rest with
    | nil => simp [splitlinesChars, hc.1, hc.2]
    | cons c2 rest2 =>
      have hrec := ih (by simp) (fun x hx => h x (List.mem_cons_of_mem c hx))
      simp [splitlinesChars, hc.1, hc.2, hrec]

theorem regFold_const (ls : List String) (reg : String)
    (h : ∀ l ∈ ls, isRegistrarLine l = false) : regFold ls reg = reg := by
  induction ls generalizing reg with
  | nil => rfl
  | cons line rest ih =>
    have h1 := h line (List.mem_cons_self line rest)
    simp [regFold, h1, ih _ (fun l hl => h l (List.mem_cons_of_mem line hl))]

theorem regFold_lastMatch (ls : List String) (reg : String) :
    regFold ls reg =
      match lastMatch isRegistrarLine ls with
      | none => reg
      | some l => regText l := by
  induction ls generalizing reg with
  | nil => rfl
  | cons line rest ih =>
    cases hlm : lastMatch isRegistrarLine rest with
    | none =>
      by_cases hl : isRegistrarLine line = true
      · simp [regFold, lastMatch, hlm, hl, ih]
      · simp only [Bool.not_eq_true] at hl
        simp [regFold, lastMatch, hlm, hl, ih]
    | some y => simp [regFold, lastMatch, hlm, ih]

theorem parseLoop_no_expire (dparse : String → Option Int) (ls : List String)
    (ed : ExpirationValue) (reg : String) (h : ∀ l ∈ ls, isExpireLine l = false) :
    parseLoop dparse ls ed reg = .ok (ed, regFold ls reg) := by
  induction ls generalizing reg with
  | nil => rfl
  | cons line rest ih =>
    have h1 := h line (List.mem_cons_self line rest)
    simp [parseLoop, regFold, h1, ih _ (fun l hl => h l (List.mem_cons_of_mem line hl))]

theorem parseLoop_error_of_mem (dparse : String → Option Int) (ls : List String)
    (ed : ExpirationValue) (reg : String) (l : String) (hl : l ∈ ls)
    (hexp : isExpireLine l = true) (hfail : dparse (dateText l) = none) :
    parseLoop dparse ls ed reg = .error () := by
  induction ls generalizing ed reg with
  | nil => cases hl
  | cons line rest ih =>
    rcases List.mem_cons.mp hl with rfl | hmem
    · simp [parseLoop, hexp, hfail]
    · by_cases hline : isExpireLine line = true
      · cases hd : dparse (dateText line) with
        | none => simp [parseLoop, hline, hd]
        | some d => simp [parseLoop, hline, hd]; exact ih _ _ hmem
      · simp only [Bool.not_eq_true] at hline
        simp [parseLoop, hline]
        exact ih _ _ hmem

theorem parseLoop_ok_spec (dparse : String → Option Int) (ls : List String)
    (ed : ExpirationValue) (reg : String) (e : ExpirationValue) (r : String)
    (h : parseLoop dparse ls ed reg = .ok (e, r)) :
    ((lastMatch isExpireLine ls = none → e = ed) ∧
     (∀ l, lastMatch isExpireLine ls = some l →
        ∃ d, dparse (dateText l) = some d ∧ e = .date d)) ∧
    r = regFold ls reg := by
  induction ls generalizing ed reg with
  | nil =>
    simp [parseLoop] at h
    exact ⟨⟨fun _ => h.1.symm, fun l hl => by simp [lastMatch] at hl⟩, h.2.symm⟩
  | cons line rest ih =>
    by_cases hline : isExpireLine line = true
    · cases hd : dparse (dateText line) with
      | none => simp [parseLoop, hline, hd] at h
      | some d =>
        simp only [parseLoop, hline, hd, if_true] at h
        have spec := ih _ _ h
        cases hlm : lastMatch isExpireLine rest with
        | none =>
          refine ⟨⟨fun hnone => ?_, fun l hl => ?_⟩, spec.2⟩
          · simp [lastMatch, hlm, hline] at hnone
          · simp only [lastMatch, hlm, hline, if_pos] at hl
            cases hl
            exact ⟨d, hd, spec.1.1 hlm⟩
        | some y =>
          refine ⟨⟨fun hnone => ?_, fun l hl => ?_⟩, spec.2⟩
          · simp [lastMatch, hlm] at hnone
          · simp only [lastMatch, hlm] at hl
            cases hl
            exact spec.1.2 y hlm
    · simp only [Bool.not_eq_true] at hline
      simp only [parseLoop, hline, Bool.false_eq_true, if_false] at h
      have spec := ih _ _ h
      cases hlm : lastMatch isExpireLine rest with
      | none =>
        refine ⟨⟨fun _ => spec.1.1 hlm, fun l hl => ?_⟩, spec.2⟩
        · simp [lastMatch, hlm, hline] at hl
      | some y =>
        refine ⟨⟨fun hnone => by simp [lastMatch, hlm] at hnone, fun l hl => ?_⟩, spec.2⟩
        · simp only [lastMatch, hlm] at hl
          cases hl
          exact spec.1.2 y hlm


/-- Claim C1 (counterexample): on WHOIS text in which no line contains a
known expiration label, the parser does not fail with a typed error — it
returns a normal result: the placeholder expiration string and the
default registrar. -/
theorem C1_counterexample :
    parse_whois_data dateutilParse "Domain Name: EXAMPLE.COM\nStatus: ok" =
      .ok (.sentinel "00/00/00 00:00:00", "Unknown") := rfl

/-- Claim C1 (amended): for WHOIS text with no recognized expiration label
the parser returns normally with the placeholder expiration string, and it
fails — by an uncaught exception, not a typed ParseError — whenever some
expiration-labelled line has unparseable date text. -/
theorem C1_amended (dparse : String → Option Int) (t : String) :
    ((∀ l ∈ splitlines t, isExpireLine l = false) →
      parse_whois_data dparse t =
        .ok (.sentinel "00/00/00 00:00:00", regFold (splitlines t) "Unknown")) ∧
    (∀ l ∈ splitlines t, isExpireLine l = true → dparse (dateText l) = none →
      parse_whois_data dparse t = .error ()) := by
  constructor
  · intro h
    exact parseLoop_no_expire dparse (splitlines t) _ _ h
  · intro l hl hexp hfail
    exact parseLoop_error_of_mem dparse (splitlines t) _ _ l hl hexp hfail

/-- Witness for the amended C1 at a concrete label-free input. -/
theorem C1_witness :
    parse_whois_data dateutilParse "Status: ok" =
      .ok (.sentinel "00/00/00 00:00:00", "Unknown") :=
  (C1_amended dateutilParse "Status: ok").1 (by decide)

/-- Claim C2: on a parsed expiration timestamp, `calculate_expiration_days`
computes the integer day difference (Python `timedelta.days`, a floor)
between expiration and current time, returns it — possibly negative — when
it is strictly below the threshold, and returns `0` otherwise. -/
theorem C2_day_difference (expire_days e now : Int) :
    (timedeltaDays (e - now) < expire_days →
      calculate_expiration_days expire_days (.date e) now =
        .ok (timedeltaDays (e - now))) ∧
    (expire_days ≤ timedeltaDays (e - now) →
      calculate_expiration_days expire_days (.date e) now = .ok 0) := by
  constructor
  · intro h
    simp [calculate_expiration_days, h]
  · intro h
    simp [calculate_expiration_days, not_lt.mpr h]

/-- Witness for C2: an already-expired domain (5 days past) yields `-5`
below threshold 10; a 20-days-away domain yields `0` at threshold 10. -/
theorem C2_witness :
    calculate_expiration_days 10 (.date 0) 432000000000 = .ok (-5) ∧
    calculate_expiration_days 10 (.date 1728000000000) 0 = .ok 0 :=
  ⟨(C2_day_difference 10 0 432000000000).1 (by decide),
   (C2_day_difference 10 1728000000000 0).2 (by decide)⟩

/-- Claim C3 (counterexample): with two expiration-labelled lines and two
registrar lines, the parser returns the date of the second (last)
expiration line and the registrar of the last registrar line — and the two
candidate dates differ, so this is not the first match. -/
theorem C3_counterexample :
    parse_whois_data dateutilParse
      "Expiration: 2020-01-01\nRegistrar: First Reg\nExpiration: 2021-06-30\nRegistrar: Second Reg" =
      .ok (.date (daysFromCivil 2021 6 30 * usPerDay), "Second Reg") ∧
    daysFromCivil 2021 6 30 * usPerDay ≠ daysFromCivil 2020 1 1 * usPerDay :=
  ⟨rfl, by decide⟩

/-- Claim C3 (amended): the loop overwrites its variables on every matching
line, so the LAST match wins per field: any successful parse returns the
date parsed from the last expiration-labelled line and the registrar
extracted from the last registrar-labelled line. -/
theorem C3_amended (dparse : String → Option Int) (t : String)
    (e : ExpirationValue) (r : String)
    (h : parse_whois_data dparse t = .ok (e, r)) :
    (∀ l, lastMatch isExpireLine (splitlines t) = some l →
      ∃ d, dparse (dateText l) = some d ∧ e = .date d) ∧
    (∀ l, lastMatch isRegistrarLine (splitlines t) = some l → r = regText l) := by
  have spec := parseLoop_ok_spec dparse (splitlines t) _ _ e r h
  refine ⟨spec.1.2, fun l hl => ?_⟩
  have hr := spec.2
  rw [regFold_lastMatch, hl] at hr
  exact hr

/-- Witness for the amended C3 at the two-match input. -/
theorem C3_witness :
    dateutilParse (dateText "Expiration: 2021-06-30") =
      some (daysFromCivil 2021 6 30 * usPerDay) ∧
    regText "Registrar: Second Reg" = "Second Reg" := by
  have h := C3_amended dateutilParse
    "Expiration: 2020-01-01\nRegistrar: First Reg\nExpiration: 2021-06-30\nRegistrar: Second Reg"
    (.date (daysFromCivil 2021 6 30 * usPerDay)) "Second Reg" rfl
  obtain ⟨d, hd, he⟩ := h.1 "Expiration: 2021-06-30" (by decide)
  have h2 := h.2 "Registrar: Second Reg" (by decide)
  cases he
  exact ⟨hd, h2.symm⟩

/-- Claim C4 (counterexample): the line `Domain Expiration Date 2020-06-30`
contains a known label followed by a valid date string, yet the parser
fails instead of extracting the date: the label is not followed by `": "`,
so `partition(": ")` hands the empty string to the date parser. -/
theorem C4_counterexample :
    parse_whois_data dateutilParse "Domain Expiration Date 2020-06-30" = .error () ∧
    dateutilParse "2020-06-30" = some (daysFromCivil 2020 6 30 * usPerDay) :=
  ⟨rfl, rfl⟩

/-- Claim C4 (amended): the parser feeds the text after the first `": "` of
the line to the date parser; hence on a one-line input `lbl ++ " " ++ ds`
whose recognized label `lbl` ends in `:` with no earlier colon, and whose
trailing text `ds` parses as date `d`, exactly `d` is extracted. -/
theorem C4_amended (dparse : String → Option Int) (lbl ds : String)
    (pre : List Char) (d : Int)
    (hmem : lbl ∈ EXPIRE_STRINGS) (hcolon : lbl.data = pre ++ [':'])
    (hpre : ':' ∉ pre)
    (hnl : ∀ c ∈ (lbl ++ " " ++ ds).data, c ≠ '\n' ∧ c ≠ '\r')
    (hd : dparse ds = some d) :
    parse_whois_data dparse (lbl ++ " " ++ ds) =
      .ok (.date d,
        if isRegistrarLine (lbl ++ " " ++ ds) then regText (lbl ++ " " ++ ds)
        else "Unknown") := by
  have hdata : (lbl ++ " " ++ ds).data = lbl.data ++ ' ' :: ds.data := by
    simp [String.data_append]
  have hne : (lbl ++ " " ++ ds).data ≠ [] := by
    rw [hdata, hcolon]
    simp
  have hsplit : splitlines (lbl ++ " " ++ ds) = [lbl ++ " " ++ ds] := by
    unfold splitlines
    rw [splitlinesChars_single _ hne hnl]
    rfl
  have hexp : isExpireLine (lbl ++ " " ++ ds) = true := by
    unfold isExpireLine
    rw [List.any_eq_true]
    refine ⟨lbl, hmem, ?_⟩
    unfold strContains
    rw [hdata]
    exact containsSub_self_append lbl.data (' ' :: ds.data)
  have hdate : dateText (lbl ++ " " ++ ds) = ds := by
    unfold dateText
    rw [hdata, hcolon, List.append_assoc]
    rw [show [':'] ++ ' ' :: ds.data = ':' :: ' ' :: ds.data from rfl]
    rw [partAfterFirst_colon_space pre ds.data hpre]
  unfold parse_whois_data
  rw [hsplit]
  simp [parseLoop, hexp, hdate, hd]

/-- Witness for the amended C4 at a concrete `Expiration:` line. -/
theorem C4_witness :
    parse_whois_data dateutilParse "Expiration: 2020-06-30" =
      .ok (.date (daysFromCivil 2020 6 30 * usPerDay), "Unknown") :=
  C4_amended dateutilParse "Expiration:" "2020-06-30" "Expiration".data
    (daysFromCivil 2020 6 30 * usPerDay)
    (by decide) (by decide) (by decide) (by decide) rfl

/-- Claim C5: when no line of the WHOIS text contains the registrar label,
any successful parse returns the registrar field `"Unknown"`. -/
theorem C5_registrar_unknown (dparse : String → Option Int) (t : String)
    (h : ∀ l ∈ splitlines t, isRegistrarLine l = false)
    (e : ExpirationValue) (r : String)
    (hok : parse_whois_data dparse t = .ok (e, r)) : r = "Unknown" := by
  have spec := parseLoop_ok_spec dparse (splitlines t) _ _ e r hok
  rw [spec.2, regFold_const _ _ h]

/-- Witness for C5 at a registrar-free input with one expiration line. -/
theorem C5_witness :
    parse_whois_data dateutilParse "expires: 2030-01-02" =
      .ok (.date (daysFromCivil 2030 1 2 * usPerDay), "Unknown") ∧
    ("Unknown" : String) = "Unknown" :=
  ⟨rfl, C5_registrar_unknown dateutilParse "expires: 2030-01-02" (by decide) _ _ rfl⟩

/-- Claim C6: for an expiration exactly 30 days after the current time, the
evaluator reports not-expiring (`0`) at threshold 10, and 30 days
remaining at threshold 90. -/
theorem C6_thirty_days (now : Int) :
    calculate_expiration_days 10 (.date (now + 30 * usPerDay)) now = .ok 0 ∧
    calculate_expiration_days 90 (.date (now + 30 * usPerDay)) now = .ok 30 := by
  have hd : timedeltaDays (30 * usPerDay) = 30 := by decide
  have h30 : now + 30 * usPerDay - now = 30 * usPerDay := by ring
  constructor
  · simp [calculate_expiration_days, h30, hd]
  · simp [calculate_expiration_days, h30, hd]

/-- Claim C7: the parser is deterministic and stateless: runs from any two
output states give the same result, re-running after a first run gives the
same result again, and (as `DEBUG = 0`) the state is left unchanged. -/
theorem C7_deterministic (dparse : String → Option Int) (t : String)
    (out1 out2 : List String) :
    (parse_whois_dataSt dparse t out1).1 = (parse_whois_dataSt dparse t out2).1 ∧
    (parse_whois_dataSt dparse t (parse_whois_dataSt dparse t out1).2).1 =
      (parse_whois_dataSt dparse t out1).1 ∧
    (parse_whois_dataSt dparse t out1).2 = out1 := by
  refine ⟨rfl, rfl, ?_⟩
  simp [parse_whois_dataSt, debugWrite, DEBUG]

/-- Claim C8: for a domain whose integer day difference is exactly 0 (it
expires within the next 24 hours) and a positive threshold, the evaluator
returns 0, `check_expired` maps that 0 to 0, and the truthiness test in
`main` therefore suppresses the notification. -/
theorem C8_boundary_suppressed (t e now : Int) (ht : 0 < t)
    (h0 : timedeltaDays (e - now) = 0) :
    calculate_expiration_days t (.date e) now = .ok 0 ∧
    check_expired t 0 = 0 ∧
    notifyDecision t 0 = false := by
  refine ⟨?_, ?_, ?_⟩
  · simp [calculate_expiration_days, h0, ht]
  · simp [check_expired, ht]
  · simp [notifyDecision, check_expired, intTruthy, ht]

/-- Witness for C8: one second to expiry, threshold 10. -/
theorem C8_witness :
    calculate_expiration_days 10 (.date 1000000) 0 = .ok 0 ∧
    check_expired 10 0 = 0 ∧
    notifyDecision 10 0 = false :=
  C8_boundary_suppressed 10 1000000 0 (by decide) (by decide)

/-- Claim C9: with no expiration-labelled line the parser returns the
literal placeholder string `"00/00/00 00:00:00"` — a normal result, not a
timestamp and not a typed error — and `calculate_expiration_days` applied
to that value terminates the whole process via `sys.exit(1)`, modelled as
`Except.error 1`. -/
theorem C9_sentinel_exit (dparse : String → Option Int) (t : String)
    (h : ∀ l ∈ splitlines t, isExpireLine l = false) (td now : Int) :
    parse_whois_data dparse t =
      .ok (.sentinel "00/00/00 00:00:00", regFold (splitlines t) "Unknown") ∧
    calculate_expiration_days td (.sentinel "00/00/00 00:00:00") now = .error 1 :=
  ⟨parseLoop_no_expire dparse (splitlines t) _ _ h, rfl⟩

/-- Witness for C9 at a concrete label-free input. -/
theorem C9_witness :
    parse_whois_data dateutilParse "Domain Name: EXAMPLE.ORG" =
      .ok (.sentinel "00/00/00 00:00:00", "Unknown") ∧
    calculate_expiration_days 10 (.sentinel "00/00/00 00:00:00") 0 = .error 1 :=
  C9_sentinel_exit dateutilParse "Domain Name: EXAMPLE.ORG" (by decide) 10 0

/-- Claim C10: for every positive threshold, `check_expired` is a no-op on
the output of `calculate_expiration_days` and is idempotent there. -/
theorem C10_check_expired_noop (t e now : Int) (ht : 0 < t) (d : Int)
    (hd : calculate_expiration_days t (.date e) now = .ok d) :
    check_expired t d = d ∧
    check_expired t (check_expired t d) = check_expired t d := by
  have hcases : d = timedeltaDays (e - now) ∧ timedeltaDays (e - now) < t ∨ d = 0 := by
    by_cases hlt : timedeltaDays (e - now) < t
    · refine Or.inl ⟨?_, hlt⟩
      simp [calculate_expiration_days, hlt] at hd
      exact hd.symm
    · refine Or.inr ?_
      simp [calculate_expiration_days, hlt] at hd
      exact hd.symm
  rcases hcases with ⟨rfl, hlt⟩ | rfl
  · constructor <;> simp [check_expired, hlt]
  · constructor <;> simp [check_expired, ht]

/-- Witness for C10: threshold 10, expiration equal to the current time. -/
theorem C10_witness :
    check_expired 10 0 = 0 ∧
    check_expired 10 (check_expired 10 0) = check_expired 10 0 :=
  C10_check_expired_noop 10 0 0 (by decide) 0 rfl


end DnsChecker
